import Mathlib

set_option maxRecDepth 65536

/-!
Verification development for the `CdkErrorMapper` error classification and
translation engine (`CdkErrorMapper.getAmplifyError`, `getCDKError`,
`getKnownErrors` in the backend-deployer sources). The data model, the
toolkit-error probe, the known-error rule table and the classifier are
embedded as executable Lean definitions; JavaScript regular expressions are
embedded as an explicit abstract syntax (`RE`) with a backtracking matcher
whose result order models the leftmost-match, greedy,
first-alternative-first semantics of `RegExp.prototype.test` /
`String.prototype.match` without the `g` flag.
-/

namespace CdkMapper

/-- `AmplifyErrorClassification` from platform-core: `'ERROR' | 'FAULT'`. -/
inductive AmplifyErrorClassification : Type where
  | ERROR : AmplifyErrorClassification
  | FAULT : AmplifyErrorClassification
deriving DecidableEq, Repr

/-- The capability categories probed on a toolkit error via
`ToolkitError.isAuthenticationError` / `isAssemblyError` /
`isContextProviderError` / `isToolkitError` (from `@aws-cdk/toolkit-lib`,
outside the given sources; the probes are modelled as an input field). -/
inductive ToolkitKind : Type where
  | authentication : ToolkitKind
  | assembly : ToolkitKind
  | contextProvider : ToolkitKind
  | generic : ToolkitKind
deriving DecidableEq, Repr

/-- `DeploymentType` from `@aws-amplify/plugin-types`: the mapper only
distinguishes `'branch'` from everything else. -/
inductive DeploymentType : Type where
  | branch : DeploymentType
  | sandbox : DeploymentType
deriving DecidableEq, Repr

mutual
/-- A structured Amplify error (`AmplifyError` of platform-core): a kind tag
(`name`), a classification, a human readable message, an optional resolution
and an optional cause (the raw error object it wraps). -/
inductive AmplifyError : Type where
  | mk : String → AmplifyErrorClassification → String → Option String →
      Option RawError → AmplifyError

/-- The raw `Error` object handed to `getAmplifyError`: its `name`, its
`message`, which toolkit capability probes it satisfies, and, when it is
already an `AmplifyError` instance (the capability check
`AmplifyError.isAmplifyError`), its structured content. -/
inductive RawError : Type where
  | mk : String → String → Option ToolkitKind → Option AmplifyError → RawError
end

def AmplifyError.name : AmplifyError → String
  | .mk n _ _ _ _ => n

def AmplifyError.classification : AmplifyError → AmplifyErrorClassification
  | .mk _ c _ _ _ => c

def AmplifyError.message : AmplifyError → String
  | .mk _ _ m _ _ => m

def AmplifyError.resolution : AmplifyError → Option String
  | .mk _ _ _ r _ => r

def AmplifyError.cause : AmplifyError → Option RawError
  | .mk _ _ _ _ c => c

def RawError.name : RawError → String
  | .mk n _ _ _ => n

def RawError.message : RawError → String
  | .mk _ m _ _ => m

def RawError.toolkit : RawError → Option ToolkitKind
  | .mk _ _ t _ => t

def RawError.amplify : RawError → Option AmplifyError
  | .mk _ _ _ a => a

/-- The input error object with its `message` field overwritten (the mapper
performs `underlyingError.message = matchGroups[0]` in one branch). -/
def RawError.withMessage : RawError → String → RawError
  | .mk n _ t a, m => .mk n m t a

/-- `new AmplifyUserError(name, {message, resolution}, cause)`. -/
def AmplifyUserError (name : String) (message : String)
    (resolution : Option String) (cause : Option RawError) : AmplifyError :=
  .mk name .ERROR message resolution cause

/-- `new AmplifyFault(name, {message, resolution}, cause)`. -/
def AmplifyFault (name : String) (message : String)
    (resolution : Option String) (cause : Option RawError) : AmplifyError :=
  .mk name .FAULT message resolution cause

/-! ## String helpers mirroring the JavaScript string operations used. -/

/-- `String.prototype.includes`: substring containment. -/
def jsIncludesAux (pat : List Char) : List Char → Bool
  | [] => pat.isPrefixOf []
  | c :: cs => pat.isPrefixOf (c :: cs) || jsIncludesAux pat cs

def jsIncludes (s pat : String) : Bool :=
  jsIncludesAux pat.toList s.toList

/-- `String.prototype.replace` with a plain-string pattern: replaces the
first occurrence only. -/
def jsReplaceFirstAux (pat rep : List Char) : List Char → List Char
  | [] => if pat.isPrefixOf ([] : List Char) then rep else []
  | c :: cs =>
      if pat.isPrefixOf (c :: cs) then rep ++ (c :: cs).drop pat.length
      else c :: jsReplaceFirstAux pat rep cs

def jsReplaceFirst (s pat rep : String) : String :=
  String.mk (jsReplaceFirstAux pat.toList rep.toList s.toList)

/-- `message.replace(new RegExp('[\r\n]*$'), '')`: the first (hence
leftmost) match of that pattern is the maximal trailing run of CR/LF
characters, so replacing it with the empty string drops exactly that run. -/
def dropTrailingEol (s : String) : String :=
  String.mk ((s.toList.reverse.dropWhile (fun c => c = '\r' || c = '\n')).reverse)

/-! ## Regular expressions: abstract syntax and backtracking matcher. -/

/-- Abstract syntax of the JavaScript regular expressions appearing in the
mapper: literal characters, character classes given by ranges with an
optional negation flag, concatenation, alternation, the greedy quantifiers
(star, plus, opt), capture groups (named or not), the end anchor `$` and
the fixed-string negative lookbehind. -/
inductive RE : Type where
  | eps : RE
  | ch : Char → RE
  | cls : Bool → List (Char × Char) → RE
  | cat : RE → RE → RE
  | alt : RE → RE → RE
  | star : RE → RE
  | plus : RE → RE
  | opt : RE → RE
  | group : Option String → RE → RE
  | dollar : RE
  | lookbehindNeg : List Char → RE
deriving Repr

/-- Literal string pattern. -/
def RE.lit (s : String) : RE :=
  s.toList.foldr (fun c r => RE.cat (RE.ch c) r) RE.eps

/-- Concatenation of a list of patterns. -/
def RE.seq (l : List RE) : RE :=
  l.foldr RE.cat RE.eps

/-- Membership in a class given by character ranges. -/
def inRanges (c : Char) : List (Char × Char) → Bool
  | [] => false
  | (lo, hi) :: rest => (lo ≤ c && c ≤ hi) || inRanges c rest

/-- The dot matches anything but a line terminator
(`\n`, `\r`, U+2028, U+2029). -/
def reDot : RE :=
  .cls true [('\n', '\n'), ('\r', '\r'), (' ', ' '), (' ', ' ')]

/-- The digit class `\d`. -/
def reDigit : RE := .cls false [('0', '9')]

/-- The ranges of the JavaScript whitespace class `\s`. -/
def spaceRanges : List (Char × Char) :=
  [('\t', '\x0d'), (' ', ' '), (' ', ' '), (' ', ' '),
   (' ', ' '), (' ', ' '), (' ', ' '),
   (' ', ' '), ('　', '　'), ('﻿', '﻿')]

/-- The non-whitespace class `\S`. -/
def reNonSpace : RE := .cls true spaceRanges

/-- Dot-star: the ubiquitous greedy any-run. -/
def reAnyStar : RE := .star reDot

/-- The source's `multiLineEolRegex` fragment: a greedy run of CR/LF. -/
def reEolStar : RE := .star (.cls false [('\n', '\n'), ('\r', '\r')])

/-- Named captures recorded during a match, most recent first (a later
assignment to the same group shadows an earlier one, as in JavaScript). -/
abbrev Caps := List (String × String)

/-- One layer of the backtracking matcher, structurally recursive on the
pattern; `next` is the whole matcher at one quantifier-iteration less fuel,
invoked only on a strictly shorter suffix (a star or plus iteration that
consumed input). Each result is the reversed consumed text prepended to
`pre`, the remaining suffix, and the named captures made, in backtracking
priority order: the head of the list is the alternative JavaScript commits
to (first alternative first, greedy quantifiers longest first, an
iteration that consumes nothing ends a quantifier loop). -/
def mstep (next : RE → List Char → List Char → List (List Char × List Char × Caps)) :
    RE → List Char → List Char → List (List Char × List Char × Caps)
  | .eps, pre, suf => [(pre, suf, [])]
  | .ch c, pre, suf =>
      (match suf with
      | [] => []
      | a :: rest => if a = c then [(a :: pre, rest, [])] else [])
  | .cls neg ranges, pre, suf =>
      (match suf with
      | [] => []
      | a :: rest => if inRanges a ranges ≠ neg then [(a :: pre, rest, [])] else [])
  | .cat r1 r2, pre, suf =>
      (mstep next r1 pre suf).flatMap (fun x =>
        match x with
        | (p1, s1, c1) =>
            (mstep next r2 p1 s1).map (fun y =>
              match y with
              | (p2, s2, c2) => (p2, s2, c2 ++ c1)))
  | .alt r1 r2, pre, suf => mstep next r1 pre suf ++ mstep next r2 pre suf
  | .star r1, pre, suf =>
      ((mstep next r1 pre suf).flatMap (fun x =>
        match x with
        | (p1, s1, c1) =>
            if s1.length < suf.length then
              (next (.star r1) p1 s1).map (fun y =>
                match y with
                | (p2, s2, c2) => (p2, s2, c2 ++ c1))
            else [])) ++ [(pre, suf, [])]
  | .plus r1, pre, suf =>
      (mstep next r1 pre suf).flatMap (fun x =>
        match x with
        | (p1, s1, c1) =>
            if s1.length < suf.length then
              (next (.star r1) p1 s1).map (fun y =>
                match y with
                | (p2, s2, c2) => (p2, s2, c2 ++ c1))
            else [(p1, s1, c1)])
  | .opt r1, pre, suf => mstep next r1 pre suf ++ [(pre, suf, [])]
  | .group name r1, pre, suf =>
      (mstep next r1 pre suf).map (fun x =>
        match x with
        | (p1, s1, c1) =>
            match name with
            | some n =>
                (p1, s1, (n, String.mk ((p1.take (p1.length - pre.length)).reverse)) :: c1)
            | none => (p1, s1, c1))
  | .dollar, pre, suf => if suf.isEmpty then [(pre, suf, [])] else []
  | .lookbehindNeg s, pre, suf =>
      if s.reverse.isPrefixOf pre then [] else [(pre, suf, [])]

/-- The matcher with a fuel bound on quantifier iterations. Fuel is spent
exactly when a star or plus iteration consumed at least one character, so
along any call chain the suffix is strictly shorter each time fuel is
spent: a call with `fuel ≥ suf.length + 1` never exhausts it, and `mre`
below supplies exactly that. -/
def mreF : Nat → RE → List Char → List Char → List (List Char × List Char × Caps)
  | 0, _, _, _ => []
  | fuel + 1, r, pre, suf => mstep (mreF fuel) r pre suf

/-- All ways a pattern can match a prefix of `suf` (with `pre` the reversed
text before the current position, needed for lookbehind), in backtracking
priority order. -/
def mre (r : RE) (pre suf : List Char) : List (List Char × List Char × Caps) :=
  mreF (suf.length + 1) r pre suf

/-- Unanchored search: try each start position from the left; at the first
position where the pattern matches, commit to the matcher's first result.
Returns the reversed prefix at the match start, the reversed prefix at the
match end, and the captures. -/
def reSearch (r : RE) (pre suf : List Char) :
    Option (List Char × List Char × Caps) :=
  match mre r pre suf with
  | (p1, _, c1) :: _ => some (pre, p1, c1)
  | [] =>
      match suf with
      | [] => none
      | c :: rest => reSearch r (c :: pre) rest

/-- The text a successful search consumed (`match[0]`). -/
def consumedText (preStart preEnd : List Char) : String :=
  String.mk ((preEnd.take (preEnd.length - preStart.length)).reverse)

/-- `RegExp.prototype.exec` / `String.prototype.match` (no `g` flag): the
full match text and the named captures, or `none`. -/
def RE.exec (r : RE) (s : String) : Option (String × Caps) :=
  match reSearch r [] s.toList with
  | some (p0, p1, caps) => some (consumedText p0 p1, caps)
  | none => none

/-- `RegExp.prototype.test`. -/
def RE.test (r : RE) (s : String) : Bool :=
  (r.exec s).isSome

/-- Static count of capture groups: `match.length > 1` holds exactly when
the regex has at least one capture group (named or not), participating or
not. -/
def RE.groupCount : RE → Nat
  | .eps | .ch _ | .cls _ _ | .dollar | .lookbehindNeg _ => 0
  | .cat r1 r2 | .alt r1 r2 => r1.groupCount + r2.groupCount
  | .star r1 | .plus r1 | .opt r1 => r1.groupCount
  | .group _ r1 => r1.groupCount + 1

/-- The named groups of a regex in group-number order: `match.groups` is
defined exactly when this list is nonempty, and `Object.entries` walks its
keys in this order. -/
def RE.namedNames : RE → List String
  | .eps | .ch _ | .cls _ _ | .dollar | .lookbehindNeg _ => []
  | .cat r1 r2 | .alt r1 r2 => r1.namedNames ++ r2.namedNames
  | .star r1 | .plus r1 | .opt r1 => r1.namedNames
  | .group none r1 => r1.namedNames
  | .group (some n) r1 => n :: r1.namedNames

def RE.hasNamed (r : RE) : Bool :=
  !r.namedNames.isEmpty

/-- Last-assigned value of a named group (captures are recorded most recent
first). -/
def capLookup (caps : Caps) (n : String) : Option String :=
  (caps.find? (fun p => p.1 == n)).map (fun p => p.2)

/-- `Object.entries(match.groups)`: one entry per named group of the regex,
in group order; a group that did not participate in the match has the value
`undefined`, which `String.prototype.replace` would coerce to the string
"undefined". -/
def groupsEntries (r : RE) (caps : Caps) : List (String × String) :=
  r.namedNames.map (fun n => (n, (capLookup caps n).getD "undefined"))

/-! ## ANSI stripping (the `strip-ansi` dependency). -/

/-- Modelled from the spec: step 4 of the evaluation order strips ANSI
color/control codes from the message before the rule table is scanned (the
`strip-ansi` package, outside the given sources). Modelled for CSI
sequences: an ESC `[` introducer is removed together with everything up to
and including the final byte (`0x40`-`0x7e`), which covers the color codes
the spec mentions. The Boolean state is whether the scanner is inside a
CSI sequence skipping parameter bytes. -/
def stripAnsiGo : Bool → List Char → List Char
  | _, [] => []
  | true, c :: rest =>
      if 0x40 ≤ c.toNat && c.toNat ≤ 0x7e then stripAnsiGo false rest
      else stripAnsiGo true rest
  | false, '\x1b' :: '[' :: rest => stripAnsiGo true rest
  | false, c :: rest => c :: stripAnsiGo false rest

def stripAnsi (s : String) : String :=
  String.mk (stripAnsiGo false s.toList)

/-! ## Platform-core collaborators (outside the given sources). -/

/-- Split a character list at every occurrence of a separator character. -/
def splitOnChar (sep : Char) : List Char → List (List Char)
  | [] => [[]]
  | c :: cs =>
      match splitOnChar sep cs with
      | [] => if c = sep then [[], []] else [[c]]
      | h :: t => if c = sep then [] :: h :: t else (c :: h) :: t

/-- Modelled from the spec: `AmplifyError.fromStderr` (platform-core, not
among the given sources) scans the raw message for a serialized instance of
the structured-error wire format emitted by a child process and
deserializes it; the spec does not give the wire format, so it is modelled
as a line `AMPLIFY_ERROR|name|classification|message|resolution`. -/
def AmplifyError.fromStderr (msg : String) : Option AmplifyError :=
  (splitOnChar '\n' msg.toList).findSome? (fun line =>
    match (splitOnChar '|' line).map String.mk with
    | ["AMPLIFY_ERROR", n, c, m, r] =>
        some (AmplifyError.mk n
          (if c = "FAULT" then .FAULT else .ERROR) m
          (if r = "" then none else some r) none)
    | _ => none)

/-- Modelled from the spec: `AmplifyError.isAmplifyError` (platform-core,
not among the given sources) is a capability check, not a type-name check;
an input that is already a structured error carries its structured content
in the `amplify` field of the model. -/
def AmplifyError.isAmplifyError (e : RawError) : Bool :=
  e.amplify.isSome

/-- Modelled from the spec: `AmplifyError.fromError` (platform-core, not
among the given sources) is the step-5 fallback, "a minimal passthrough
structured error wrapping the raw message verbatim, kind = unknown,
severity = FAULT"; the original error is kept as the cause. -/
def AmplifyError.fromError (e : RawError) : AmplifyError :=
  AmplifyError.mk "unknown" .FAULT e.message none (some e)

/-- Modelled from the spec: the `ToolkitError.isAuthenticationError`
capability probe of `@aws-cdk/toolkit-lib` (outside the given sources). -/
def ToolkitError.isAuthenticationError (e : RawError) : Bool :=
  e.toolkit == some ToolkitKind.authentication

/-- Modelled from the spec: the `ToolkitError.isAssemblyError` probe. -/
def ToolkitError.isAssemblyError (e : RawError) : Bool :=
  e.toolkit == some ToolkitKind.assembly

/-- Modelled from the spec: the `ToolkitError.isContextProviderError`
probe. -/
def ToolkitError.isContextProviderError (e : RawError) : Bool :=
  e.toolkit == some ToolkitKind.contextProvider

/-! ## `CdkErrorMapper.getCDKError` -/

/-- `getCDKError`: probes the toolkit error categories in order and maps
each to a fixed structured error; the native-error-name branch
(`TypeError` / `TransformError` / `ReferenceError` / `SyntaxError`)
**throws** its `AmplifyUserError` instead of returning it, which the
embedding renders as `Except.error`; any other toolkit error falls through
(`.ok none`). -/
def getCDKError (error : RawError) : Except AmplifyError (Option AmplifyError) :=
  if ToolkitError.isAuthenticationError error then
    .ok (some (AmplifyUserError "AuthenticationError"
      "Unable to deploy due to insufficient permissions"
      (some "Check the Caused by error and ensure you have the necessary permissions")
      (some error)))
  else if ToolkitError.isAssemblyError error then
    .ok (some (AmplifyUserError "BackendBuildError"
      "Unable to deploy due to CDK Assembly Error"
      (some "Check the Caused by error and fix any issues in your backend code")
      (some error)))
  else if ToolkitError.isContextProviderError error then
    .ok (some (AmplifyFault "CDKContextProviderFault"
      "Unable to deploy due to CDK Context Provider Error"
      none
      (some error)))
  else if ["TypeError", "TransformError", "ReferenceError", "SyntaxError"].contains
      error.name then
    .error (AmplifyUserError "SyntaxError"
      "Unable to build the Amplify backend definition."
      (some "Check the Caused by error and fix any issues in your backend code")
      (some error))
  else
    .ok none

/-! ## The known-error rule table (`CdkErrorMapper.getKnownErrors`).

A fresh array of rule objects is produced on every call in the source;
each entry's original regular expression literal is quoted in the comment
above it. `fmt` is `this.formatter.normalizeAmpxCommand`. -/

structure KnownError where
  errorRegex : RE
  humanReadableErrorMessage : String
  resolutionMessage : String
  errorName : String
  classification : AmplifyErrorClassification

def getKnownErrors (fmt : String → String) : List KnownError := [
  -- /ExpiredToken: .*|The security token included in the request is (expired|invalid)/
  { errorRegex := .alt (.cat (.lit "ExpiredToken: ") reAnyStar)
      (.cat (.lit "The security token included in the request is ")
        (.group none (.alt (.lit "expired") (.lit "invalid")))),
    humanReadableErrorMessage :=
      "The security token included in the request is invalid.",
    resolutionMessage :=
      "Please update your AWS credentials. You can do this by running `aws configure` or by updating your AWS credentials file. If you're using temporary credentials, you may need to obtain new ones.",
    errorName := "ExpiredTokenError",
    classification := .ERROR },
  -- /The request signature we calculated does not match the signature you provided/
  { errorRegex :=
      .lit "The request signature we calculated does not match the signature you provided",
    humanReadableErrorMessage :=
      "The request signature we calculated does not match the signature you provided.",
    resolutionMessage :=
      "You can retry your last request, check if your system time is synchronized (clock skew) or ensure your AWS credentials are correctly set and refreshed.",
    errorName := "RequestSignatureError",
    classification := .ERROR },
  -- /Access Denied/
  { errorRegex := .lit "Access Denied",
    humanReadableErrorMessage :=
      "The deployment role does not have sufficient permissions to perform this deployment.",
    resolutionMessage :=
      "Ensure your deployment role has the AmplifyBackendDeployFullAccess role along with any additional permissions required to deploy your backend definition.",
    errorName := "AccessDeniedError",
    classification := .ERROR },
  -- /(Has the environment been bootstrapped)|(Is account \d+ bootstrapped)|(Is this account bootstrapped)/
  { errorRegex := .alt (.group none (.lit "Has the environment been bootstrapped"))
      (.alt (.group none (.seq [.lit "Is account ", .plus reDigit, .lit " bootstrapped"]))
        (.group none (.lit "Is this account bootstrapped"))),
    humanReadableErrorMessage :=
      "This AWS account and region has not been bootstrapped.",
    resolutionMessage :=
      "Run `cdk bootstrap aws://{YOUR_ACCOUNT_ID}/{YOUR_REGION}` locally to resolve this.",
    errorName := "BootstrapNotDetectedError",
    classification := .ERROR },
  -- /This CDK deployment requires bootstrap stack version \S+, found \S+\. Please run 'cdk bootstrap'\./
  { errorRegex := .seq [.lit "This CDK deployment requires bootstrap stack version ",
      .plus reNonSpace, .lit ", found ", .plus reNonSpace,
      .lit ". Please run 'cdk bootstrap'."],
    humanReadableErrorMessage :=
      "This AWS account and region has outdated CDK bootstrap stack.",
    resolutionMessage :=
      "Run `cdk bootstrap aws://{YOUR_ACCOUNT_ID}/{YOUR_REGION}` locally to re-bootstrap.",
    errorName := "BootstrapOutdatedError",
    classification := .ERROR },
  -- /This CDK deployment requires bootstrap stack version \S+, but during the confirmation via SSM parameter \S+ the following error occurred: AccessDeniedException/
  { errorRegex := .seq [.lit "This CDK deployment requires bootstrap stack version ",
      .plus reNonSpace, .lit ", but during the confirmation via SSM parameter ",
      .plus reNonSpace, .lit " the following error occurred: AccessDeniedException"],
    humanReadableErrorMessage :=
      "Unable to detect CDK bootstrap stack due to permission issues.",
    resolutionMessage :=
      "Ensure that AWS credentials have an IAM policy that grants read access to 'arn:aws:ssm:*:*:parameter/cdk-bootstrap/*' SSM parameters.",
    errorName := "BootstrapDetectionError",
    classification := .ERROR },
  -- /This CDK CLI is not compatible with the CDK library used by your application\. Please upgrade the CLI to the latest version\./
  { errorRegex :=
      .lit "This CDK CLI is not compatible with the CDK library used by your application. Please upgrade the CLI to the latest version.",
    humanReadableErrorMessage :=
      "Installed 'aws-cdk' is not compatible with installed 'aws-cdk-lib'.",
    resolutionMessage :=
      "Make sure that version of 'aws-cdk' is greater or equal to version of 'aws-cdk-lib'",
    errorName := "CDKVersionMismatchError",
    classification := .ERROR },
  -- /Command cdk not found/
  { errorRegex := .lit "Command cdk not found",
    humanReadableErrorMessage := "Unable to detect cdk installation",
    resolutionMessage :=
      "Ensure dependencies in your project are installed with your package manager. For example, by running 'yarn install' or 'npm install'",
    errorName := "CDKNotFoundError",
    classification := .ERROR },
  -- /Role (?<roleArn>.*) is invalid or cannot be assumed/
  { errorRegex := .seq [.lit "Role ", .group (some "roleArn") reAnyStar,
      .lit " is invalid or cannot be assumed"],
    humanReadableErrorMessage :=
      "Role {roleArn} is invalid or cannot be assumed",
    resolutionMessage :=
      "Ensure the role exists and AWS credentials have an IAM policy that grants sts:AssumeRole for the role",
    errorName := "InvalidOrCannotAssumeRoleError",
    classification := .ERROR },
  -- /Unable to resolve AWS account to use/
  { errorRegex := .lit "Unable to resolve AWS account to use",
    humanReadableErrorMessage :=
      "Unable to resolve AWS account to use. It must be either configured when you define your CDK Stack, or through the environment",
    resolutionMessage :=
      "You can retry your last request as this is most likely a transient issue: https://github.com/aws/aws-cdk/issues/24744. If the error persists ensure your local AWS credentials are valid.",
    errorName := "CDKResolveAWSAccountError",
    classification := .ERROR },
  -- /EACCES(.*)/
  { errorRegex := .cat (.lit "EACCES") (.group none reAnyStar),
    humanReadableErrorMessage := "File permissions error",
    resolutionMessage :=
      "Check that you have the right access permissions to the mentioned file",
    errorName := "FilePermissionsError",
    classification := .ERROR },
  -- /operation not permitted, rename (?<fileName>(.*)\/synth\.lock\.\S+) → '(.*)\/synth\.lock'/
  { errorRegex := .seq [.lit "operation not permitted, rename ",
      .group (some "fileName")
        (.seq [.group none reAnyStar, .lit "/synth.lock.", .plus reNonSpace]),
      .lit " → '", .group none reAnyStar, .lit "/synth.lock'"],
    humanReadableErrorMessage := "Not permitted to rename file: {fileName}",
    resolutionMessage :=
      "Try running the command again and ensure that only one instance of sandbox is running. If it still doesn't work check the permissions of '.amplify' folder",
    errorName := "FilePermissionsError",
    classification := .ERROR },
  -- /operation not permitted, mkdir '(.*).amplify\/artifacts\/cdk.out'/
  { errorRegex := .seq [.lit "operation not permitted, mkdir '",
      .group none reAnyStar, reDot, .lit "amplify/artifacts/cdk", reDot, .lit "out'"],
    humanReadableErrorMessage :=
      "Not permitted to create the directory '.amplify/artifacts/cdk.out'",
    resolutionMessage :=
      "Check the permissions of '.amplify' folder and try running the command again",
    errorName := "FilePermissionsError",
    classification := .ERROR },
  -- /operation not permitted, (unlink|open) (?<fileName>(.*)\.lock\S+)/
  { errorRegex := .seq [.lit "operation not permitted, ",
      .group none (.alt (.lit "unlink") (.lit "open")), .lit " ",
      .group (some "fileName")
        (.seq [.group none reAnyStar, .lit ".lock", .plus reNonSpace])],
    humanReadableErrorMessage := "Operation not permitted on file: {fileName}",
    resolutionMessage :=
      "Check the permissions of '.amplify' folder and try running the command again",
    errorName := "FilePermissionsError",
    classification := .ERROR },
  -- new RegExp(`Cannot find module (.*)`)
  { errorRegex := .cat (.lit "Cannot find module ") (.group none reAnyStar),
    humanReadableErrorMessage := "Cannot find module",
    resolutionMessage :=
      "Check your backend definition in the `amplify` folder for missing file or package imports. Try installing them with your package manager.",
    errorName := "ModuleNotFoundError",
    classification := .ERROR },
  -- /Another CLI (.*) is currently(.*)\. |Other CLIs (.*) are currently reading from(.*)\. /
  { errorRegex := .alt
      (.seq [.lit "Another CLI ", .group none reAnyStar, .lit " is currently",
        .group none reAnyStar, .lit ". "])
      (.seq [.lit "Other CLIs ", .group none reAnyStar,
        .lit " are currently reading from", .group none reAnyStar, .lit ". "]),
    humanReadableErrorMessage := "Multiple sandbox instances detected.",
    resolutionMessage :=
      "Make sure only one instance of sandbox is running for this project",
    errorName := "MultipleSandboxInstancesError",
    classification := .ERROR },
  -- /(.*) (size must be smaller than|exceeds the maximum allowed size of) (?<maxSize>\d+) bytes/
  { errorRegex := .seq [.group none reAnyStar, .lit " ",
      .group none (.alt (.lit "size must be smaller than")
        (.lit "exceeds the maximum allowed size of")),
      .lit " ", .group (some "maxSize") (.plus reDigit), .lit " bytes"],
    humanReadableErrorMessage := "Maximum Lambda size exceeded",
    resolutionMessage :=
      "Make sure your Lambda bundled packages with layers and dependencies is smaller than {maxSize} bytes unzipped.",
    errorName := "LambdaMaxSizeExceededError",
    classification := .ERROR },
  -- /Uploaded file must be a non-empty zip/
  { errorRegex := .lit "Uploaded file must be a non-empty zip",
    humanReadableErrorMessage := "Lambda bundled into an empty zip",
    resolutionMessage :=
      "Try removing '.amplify/artifacts' then running the command again. If it still doesn't work, see https://github.com/aws/aws-cdk/issues/18459 for more methods.",
    errorName := "LambdaEmptyZipFault",
    classification := .FAULT },
  -- /User:(.*) is not authorized to perform: lambda:GetLayerVersion on resource:(.*) because no resource-based policy allows the lambda:GetLayerVersion action/
  { errorRegex := .seq [.lit "User:", .group none reAnyStar,
      .lit " is not authorized to perform: lambda:GetLayerVersion on resource:",
      .group none reAnyStar,
      .lit " because no resource-based policy allows the lambda:GetLayerVersion action"],
    humanReadableErrorMessage := "Unable to get Lambda layer version",
    resolutionMessage :=
      "Make sure layer ARNs are correct and layer regions match function region",
    errorName := "GetLambdaLayerVersionError",
    classification := .ERROR },
  -- /The stack named (?<stackName>.*) is in a failed state. You may need to delete it from the AWS console : DELETE_FAILED \(The following resource\(s\) failed to delete: (?<resources>.*). \)/
  { errorRegex := .seq [.lit "The stack named ", .group (some "stackName") reAnyStar,
      .lit " is in a failed state", reDot,
      .lit " You may need to delete it from the AWS console : DELETE_FAILED (The following resource(s) failed to delete: ",
      .group (some "resources") reAnyStar, reDot, .lit " )"],
    humanReadableErrorMessage :=
      "The CloudFormation deletion failed due to {stackName} being in DELETE_FAILED state. Ensure all your resources are able to be deleted",
    resolutionMessage :=
      "The following resource(s) failed to delete: {resources}. Check the error message for more details and ensure your resources are in a state where they can be deleted. Check the CloudFormation AWS Console for this stack to find additional information.",
    errorName := "CloudFormationDeletionError",
    classification := .ERROR },
  -- /User:(.*) is not authorized to perform:(.*) on resource:(?<resource>.*) because no identity-based policy allows the (?<action>.*) action/
  { errorRegex := .seq [.lit "User:", .group none reAnyStar,
      .lit " is not authorized to perform:", .group none reAnyStar,
      .lit " on resource:", .group (some "resource") reAnyStar,
      .lit " because no identity-based policy allows the ",
      .group (some "action") reAnyStar, .lit " action"],
    humanReadableErrorMessage :=
      "Unable to deploy due to insufficient permissions",
    resolutionMessage :=
      "Ensure you have permissions to call {action} for {resource}",
    errorName := "AccessDeniedError",
    classification := .ERROR },
  -- /User:(.*) is not authorized to perform:(.*) because no identity-based policy allows the (?<action>.*) action/
  { errorRegex := .seq [.lit "User:", .group none reAnyStar,
      .lit " is not authorized to perform:", .group none reAnyStar,
      .lit " because no identity-based policy allows the ",
      .group (some "action") reAnyStar, .lit " action"],
    humanReadableErrorMessage :=
      "Unable to deploy due to insufficient permissions",
    resolutionMessage := "Ensure you have permissions to call {action}",
    errorName := "AccessDeniedError",
    classification := .ERROR },
  -- /User:(.*) is not authorized to perform:(?<action>.*) on resource:(?<resource>.*)/
  { errorRegex := .seq [.lit "User:", .group none reAnyStar,
      .lit " is not authorized to perform:", .group (some "action") reAnyStar,
      .lit " on resource:", .group (some "resource") reAnyStar],
    humanReadableErrorMessage :=
      "Unable to deploy due to insufficient permissions",
    resolutionMessage :=
      "Ensure you have permissions to call {action} for {resource}",
    errorName := "AccessDeniedError",
    classification := .ERROR },
  -- /Found (?<number>.*) problem\(s\) with the schema:/
  { errorRegex := .seq [.lit "Found ", .group (some "number") reAnyStar,
      .lit " problem(s) with the schema:"],
    humanReadableErrorMessage :=
      "{number} problem(s) have been found with your schema",
    resolutionMessage :=
      "See the underlying error message for details about what the problems are and resolve them before attempting this action again",
    errorName := "SchemaError",
    classification := .ERROR },
  -- new RegExp(`Transform failed with .* error(s?):[\r\n]*(?<esBuildErrorMessage>(.*[\r\n]*)+)`)
  { errorRegex := .seq [.lit "Transform failed with ", reAnyStar, .lit " error",
      .group none (.opt (.ch 's')), .lit ":", reEolStar,
      .group (some "esBuildErrorMessage")
        (.plus (.group none (.cat reAnyStar reEolStar)))],
    humanReadableErrorMessage := "{esBuildErrorMessage}",
    resolutionMessage :=
      "Fix the above mentioned type or syntax error in your backend definition.",
    errorName := "ESBuildError",
    classification := .ERROR },
  -- /Amplify Backend not found in/
  { errorRegex := .lit "Amplify Backend not found in",
    humanReadableErrorMessage :=
      "Backend definition could not be found in amplify directory.",
    resolutionMessage :=
      "Ensure that the amplify/backend.(ts|js) file exists",
    errorName := "FileConventionError",
    classification := .ERROR },
  -- /Amplify (.*) must be defined in (.*)/
  { errorRegex := .seq [.lit "Amplify ", .group none reAnyStar,
      .lit " must be defined in ", .group none reAnyStar],
    humanReadableErrorMessage :=
      "File name or path for backend definition are incorrect.",
    resolutionMessage :=
      "Ensure that the amplify/backend.(ts|js) file exists",
    errorName := "FileConventionError",
    classification := .ERROR },
  -- /Updates are not allowed for property/
  { errorRegex := .lit "Updates are not allowed for property",
    humanReadableErrorMessage :=
      "The changes that you are trying to apply are not supported.",
    resolutionMessage :=
      "The resources referenced in the error message must be deleted and recreated to apply the changes.",
    errorName := "CFNUpdateNotSupportedError",
    classification := .ERROR },
  -- /Invalid AttributeDataType input, consider using the provided AttributeDataType enum/
  { errorRegex :=
      .lit "Invalid AttributeDataType input, consider using the provided AttributeDataType enum",
    humanReadableErrorMessage :=
      "User pool attributes cannot be changed after a user pool has been created.",
    resolutionMessage :=
      "To change these attributes, remove `defineAuth` from your backend, deploy, then add it back. Note that removing `defineAuth` and deploying will delete any users stored in your UserPool.",
    errorName := "CFNUpdateNotSupportedError",
    classification := .ERROR },
  -- /connect ENOMEM (?<remoteAddress>\d+\.\d+\.\d+\.\d+).*/
  { errorRegex := .seq [.lit "connect ENOMEM ",
      .group (some "remoteAddress") (.seq [.plus reDigit, .lit ".",
        .plus reDigit, .lit ".", .plus reDigit, .lit ".", .plus reDigit]),
      reAnyStar],
    humanReadableErrorMessage :=
      "Unable to connect to remote address {remoteAddress} due to insufficient memory.",
    resolutionMessage :=
      "There appears to be insufficient memory on your system to finish. Close other applications or restart your system and try again.",
    errorName := "InsufficientMemorySpaceError",
    classification := .ERROR },
  -- new RegExp(`npm error code EJSONPARSE[\r\n]*npm error path (?<filePath>.*/package\.json)[\r\n]*(npm error (.*)[\r\n]*)*`)
  { errorRegex := .seq [.lit "npm error code EJSONPARSE", reEolStar,
      .lit "npm error path ",
      .group (some "filePath") (.cat reAnyStar (.lit "/package.json")),
      reEolStar,
      .star (.group none (.seq [.lit "npm error ", .group none reAnyStar, reEolStar]))],
    humanReadableErrorMessage := "The {filePath} is not a valid JSON.",
    resolutionMessage :=
      "Check package.json file and make sure it is a valid JSON.",
    errorName := "InvalidPackageJsonError",
    classification := .ERROR },
  -- new RegExp(`(?<npmError>(npm error|npm ERR!) code ENOENT[\r\n]*((npm error|npm ERR!) (.*)[\r\n]*)*)`)
  { errorRegex := .group (some "npmError")
      (.seq [.group none (.alt (.lit "npm error") (.lit "npm ERR!")),
        .lit " code ENOENT", reEolStar,
        .star (.group none
          (.seq [.group none (.alt (.lit "npm error") (.lit "npm ERR!")),
            .lit " ", .group none reAnyStar, reEolStar]))]),
    humanReadableErrorMessage := "NPM error occurred: {npmError}",
    resolutionMessage :=
      "See https://docs.npmjs.com/common-errors for resolution.",
    errorName := "CommonNPMError",
    classification := .ERROR },
  -- /no such file or directory, open '.*\.amplify.artifacts.cdk\.out.manifest\.json'/
  { errorRegex := .seq [.lit "no such file or directory, open '", reAnyStar,
      .lit ".amplify", reDot, .lit "artifacts", reDot, .lit "cdk.out", reDot,
      .lit "manifest.json'"],
    humanReadableErrorMessage :=
      "The Amplify backend definition is missing `defineBackend` call.",
    resolutionMessage :=
      "Check your backend definition in the `amplify` folder. Ensure that `amplify/backend.ts` contains `defineBackend` call.",
    errorName := "MissingDefineBackendError",
    classification := .ERROR },
  -- /no such file or directory, (?<action_and_filepath>.*)$/
  { errorRegex := .seq [.lit "no such file or directory, ",
      .group (some "action_and_filepath") reAnyStar, .dollar],
    humanReadableErrorMessage := "Failed to {action_and_filepath}",
    resolutionMessage :=
      "File or directory not found. Failed to {action_and_filepath}",
    errorName := "FileNotFoundError",
    classification := .ERROR },
  -- /amplify\/backend/
  { errorRegex := .lit "amplify/backend",
    humanReadableErrorMessage := "Unable to build Amplify backend.",
    resolutionMessage :=
      "Check your backend definition in the `amplify` folder for syntax and type errors.",
    errorName := "BackendBuildError",
    classification := .ERROR },
  -- /Failed to retrieve backend secret (?<secretName>.*) for.*ParameterNotFound/
  { errorRegex := .seq [.lit "Failed to retrieve backend secret ",
      .group (some "secretName") reAnyStar, .lit " for", reAnyStar,
      .lit "ParameterNotFound"],
    humanReadableErrorMessage :=
      "The secret {secretName} specified in the backend does not exist.",
    resolutionMessage :=
      "Create secrets using the command " ++ fmt "sandbox secret set" ++
      ". For more information, see https://docs.amplify.aws/gen2/deploy-and-host/sandbox-environments/features/#set-secrets",
    errorName := "SecretNotSetError",
    classification := .ERROR },
  -- /The code contains one or more errors|The code contains one or more errors.*AppSync/
  { errorRegex := .alt (.lit "The code contains one or more errors")
      (.seq [.lit "The code contains one or more errors", reAnyStar,
        .lit "AppSync"]),
    humanReadableErrorMessage :=
      "A custom resolver used in your defineData contains one or more errors",
    resolutionMessage :=
      "Check for any syntax errors in your custom resolvers code.",
    errorName := "AppSyncResolverSyntaxError",
    classification := .ERROR },
  -- new RegExp(`Failed to publish asset`, 'm') — the m flag is irrelevant: no anchors
  { errorRegex := .lit "Failed to publish asset",
    humanReadableErrorMessage := "CDK failed to publish assets",
    resolutionMessage := "Check the error message for more details.",
    errorName := "CDKAssetPublishError",
    classification := .ERROR },
  -- /destroy failed Error: Stack \[(?<stackArn>.*)\] cannot be deleted while in status /
  { errorRegex := .seq [.lit "destroy failed Error: Stack [",
      .group (some "stackArn") reAnyStar,
      .lit "] cannot be deleted while in status "],
    humanReadableErrorMessage :=
      "Backend failed to be deleted since the previous deployment is still in progress.",
    resolutionMessage :=
      "Wait for the previous deployment for stack {stackArn} to be completed before attempting to delete again.",
    errorName := "DeleteFailedWhileDeploymentInProgressError",
    classification := .ERROR },
  -- /ValidationError: Circular dependency between resources: \[(?<resources>.*)\]/
  { errorRegex := .seq [.lit "ValidationError: Circular dependency between resources: [",
      .group (some "resources") reAnyStar, .lit "]"],
    humanReadableErrorMessage :=
      "The CloudFormation deployment failed due to circular dependency found between nested stacks [{resources}]",
    resolutionMessage :=
      "If you are using functions then you can assign them to existing nested stacks that are dependent on functions or functions depend on them, for example:\n1. If your function is defined as auth triggers, you should assign this function to auth stack.\n2. If your function is used as data resolver or calls data API, you should assign this function to data stack.\nTo assign a function to a different stack, use the property 'resourceGroupName' in the defineFunction call and choose auth, data or any custom stack.\n\nIf your circular dependency issue is not resolved with this workaround, please create an issue here https://github.com/aws-amplify/amplify-backend/issues/new/choose\n",
    errorName := "CloudformationStackCircularDependencyError",
    classification := .ERROR },
  -- /(?<!ValidationError: )Circular dependency between resources: \[(?<resources>.*)\]/
  { errorRegex := .seq [.lookbehindNeg "ValidationError: ".toList,
      .lit "Circular dependency between resources: [",
      .group (some "resources") reAnyStar, .lit "]"],
    humanReadableErrorMessage :=
      "The CloudFormation deployment failed due to circular dependency found between resources [{resources}] in a single stack",
    resolutionMessage :=
      "If you are creating custom stacks or adding new CDK resources to amplify stacks, ensure that there are no cyclic dependencies. For more details see: https://aws.amazon.com/blogs/infrastructure-and-automation/handling-circular-dependency-errors-in-aws-cloudformation/",
    errorName := "CloudformationResourceCircularDependencyError",
    classification := .ERROR },
  -- /(?<stackName>amplify[a-z0-9-]+)(.*) failed: ValidationError: Stack:(.*) is in (?<state>.*) state and can not be updated/
  { errorRegex := .seq [.group (some "stackName")
        (.cat (.lit "amplify")
          (.plus (.cls false [('a', 'z'), ('0', '9'), ('-', '-')]))),
      .group none reAnyStar, .lit " failed: ValidationError: Stack:",
      .group none reAnyStar, .lit " is in ", .group (some "state") reAnyStar,
      .lit " state and can not be updated"],
    humanReadableErrorMessage :=
      "The CloudFormation deployment failed due to {stackName} being in {state} state.",
    resolutionMessage :=
      "Find more information in the CloudFormation AWS Console for this stack.",
    errorName := "CloudFormationDeploymentError",
    classification := .ERROR },
  -- /failed: ValidationError: Stack \[(?<stackName>amplify[a-z0-9-]+)(.*)\] cannot be deleted while TerminationProtection is enabled/
  { errorRegex := .seq [.lit "failed: ValidationError: Stack [",
      .group (some "stackName")
        (.cat (.lit "amplify")
          (.plus (.cls false [('a', 'z'), ('0', '9'), ('-', '-')]))),
      .group none reAnyStar,
      .lit "] cannot be deleted while TerminationProtection is enabled"],
    humanReadableErrorMessage :=
      "{stackName} cannot be deleted because it has termination deployment enabled.",
    resolutionMessage :=
      "If you are sure you want to delete {stackName}, you will need to disable TerminationProtection.",
    errorName := "CloudFormationDeletionError",
    classification := .ERROR },
  -- new RegExp(`Deployment failed: (.*)[\r\n]*|The stack named (.*) failed (to deploy:|creation,) (.*)`)
  { errorRegex := .alt
      (.seq [.lit "Deployment failed: ", .group none reAnyStar, reEolStar])
      (.seq [.lit "The stack named ", .group none reAnyStar, .lit " failed ",
        .group none (.alt (.lit "to deploy:") (.lit "creation,")), .lit " ",
        .group none reAnyStar]),
    humanReadableErrorMessage := "The CloudFormation deployment has failed.",
    resolutionMessage :=
      "Find more information in the CloudFormation AWS Console for this stack.",
    errorName := "CloudFormationDeploymentError",
    classification := .ERROR }]

/-! ## `CdkErrorMapper.getAmplifyError` -/

/-- The loop over `Object.entries(matchGroups.groups)`: for each named
group whose placeholder occurs in the current (possibly already rewritten)
message or resolution template, substitute the captured value into the
first occurrence in each of the two templates and reset the underlying
error to `undefined`. -/
def substituteLoop : List (String × String) → String → String →
    Option RawError → String × String × Option RawError
  | [], msg, res, under => (msg, res, under)
  | (key, value) :: rest, msg, res, under =>
      let placeHolder := "\x7b" ++ key ++ "\x7d"
      if jsIncludes msg placeHolder || jsIncludes res placeHolder then
        substituteLoop rest (jsReplaceFirst msg placeHolder value)
          (jsReplaceFirst res placeHolder value) none
      else
        substituteLoop rest msg res under

/-- The call's observable outcome: the value returned (or, for the one
throwing branch, thrown) by `getAmplifyError`, together with the final
state of the caller's error object (which the mapper mutates in the
unnamed-capture-group branch). -/
structure MapperOutcome where
  result : Except AmplifyError AmplifyError
  finalErr : RawError

/-- Build the structured error from a matched rule
(`AmplifyUserError` for classification ERROR, `AmplifyFault` otherwise). -/
def buildFromRule (classification : AmplifyErrorClassification)
    (errorName message : String) (resolution : String)
    (under : Option RawError) : AmplifyError :=
  match classification with
  | .ERROR => AmplifyUserError errorName message (some resolution) under
  | .FAULT => AmplifyFault errorName message (some resolution) under

/-- The body of `if (matchingError) {…}`: re-run the regex on the stripped
message (`errorMessage.match(...)`), and if the regex has capture groups
(`matchGroups.length > 1`) either run the named-group substitution loop and
trim trailing line terminators (when `matchGroups.groups` is defined), or
overwrite the caller's error message with the full match text
(`underlyingError.message = matchGroups[0]`); finally construct an
`AmplifyUserError` or `AmplifyFault` from the rule. -/
def matchedOutcome (matchingError : KnownError) (error : RawError)
    (errorMessage : String) : MapperOutcome :=
  match matchingError.errorRegex.exec errorMessage with
  | none =>
      -- unreachable given a successful test, mirrored for faithfulness:
      -- `if (matchGroups && ...)` is skipped when match returns null
      ⟨.ok (buildFromRule matchingError.classification
        matchingError.errorName matchingError.humanReadableErrorMessage
        matchingError.resolutionMessage (some error)), error⟩
  | some (fullMatch, caps) =>
      if matchingError.errorRegex.groupCount > 0 then
        if matchingError.errorRegex.hasNamed then
          let sub := substituteLoop
            (groupsEntries matchingError.errorRegex caps)
            matchingError.humanReadableErrorMessage
            matchingError.resolutionMessage (some error)
          ⟨.ok (buildFromRule matchingError.classification
            matchingError.errorName (dropTrailingEol sub.1)
            sub.2.1 sub.2.2), error⟩
        else
          ⟨.ok (buildFromRule matchingError.classification
            matchingError.errorName matchingError.humanReadableErrorMessage
            matchingError.resolutionMessage
            (some (error.withMessage fullMatch))),
           error.withMessage fullMatch⟩
      else
        ⟨.ok (buildFromRule matchingError.classification
          matchingError.errorName matchingError.humanReadableErrorMessage
          matchingError.resolutionMessage (some error)), error⟩

/-- `CdkErrorMapper.getAmplifyError(error, deploymentType?)`. `fmt` is the
formatter collaborator (`normalizeAmpxCommand`). The branches, in source
order: embedded structured error (`AmplifyError.fromStderr` on the raw
message), already-structured passthrough (`AmplifyError.isAmplifyError`),
the toolkit probe (`getCDKError`, whose native-error-name branch throws),
the `module.register` special case, the `Failed to bundle asset` special
case, then the rule-table scan against `stripAnsi error.message` (the
source's `errorMessage`), and finally the `AmplifyError.fromError`
fallback. -/
def getAmplifyError (fmt : String → String) (error : RawError)
    (deploymentType : Option DeploymentType) : MapperOutcome :=
  match AmplifyError.fromStderr error.message with
  | some amplifyError => ⟨.ok amplifyError, error⟩
  | none =>
  match error.amplify with
  | some amplifyError => ⟨.ok amplifyError, error⟩
  | none =>
  match getCDKError error with
  | .error thrown => ⟨.error thrown, error⟩
  | .ok (some errorFromCDK) => ⟨.ok errorFromCDK, error⟩
  | .ok none =>
  if jsIncludes error.message "does not support module.register()" then
    ⟨.ok (AmplifyUserError "NodeVersionNotSupportedError"
      "Unable to deploy due to unsupported node version"
      (some (if deploymentType = some DeploymentType.branch then
        "Upgrade the node version in your CI/CD environment. " ++
        "If you are using Amplify Hosting for your backend builds, you can add `nvm install 18.x` or `nvm install 20.x` in your `amplify.yml` before the `pipeline-deploy` command"
      else
        "Upgrade to node `^18.19.0`, `^20.6.0,` or `>=22`"))
      (some error)), error⟩
  else if jsIncludes error.message "Failed to bundle asset" then
    ⟨.ok (AmplifyUserError "CDKAssetBundleError"
      "CDK failed to bundle your function code"
      (some "Check the error messages above for mode details") none), error⟩
  else
    match (getKnownErrors fmt).find?
        (fun knownError => knownError.errorRegex.test (stripAnsi error.message)) with
    | none => ⟨.ok (AmplifyError.fromError error), error⟩
    | some matchingError =>
        matchedOutcome matchingError error (stripAnsi error.message)

/-! ## Observations on a call outcome, and the spec's taxonomy. -/

/-- The kind tag of the returned structured error (`none` when the call
threw instead of returning). -/
def resultName (o : MapperOutcome) : Option String :=
  match o.result with
  | .ok a => some a.name
  | .error _ => none

/-- The cause attached to the returned structured error (`none` when the
call threw instead of returning). -/
def resultCause (o : MapperOutcome) : Option (Option RawError) :=
  match o.result with
  | .ok a => some a.cause
  | .error _ => none

/-- Whether the call returned a value rather than throwing. -/
def returnedOk (o : MapperOutcome) : Bool :=
  match o.result with
  | .ok _ => true
  | .error _ => false

/-- The closed error-kind taxonomy enumerated by the spec (§6): the
`CDKDeploymentError` union of the source plus `NodeVersionNotSupportedError`
and the passthrough kind `unknown`. -/
def specTaxonomy : List String :=
  ["AccessDeniedError", "AuthenticationError", "AppSyncResolverSyntaxError",
   "BackendBuildError", "BootstrapNotDetectedError", "BootstrapDetectionError",
   "BootstrapOutdatedError", "CDKAssetPublishError", "CDKAssetBundleError",
   "CDKNotFoundError", "CDKResolveAWSAccountError", "CDKVersionMismatchError",
   "CFNUpdateNotSupportedError", "CloudformationResourceCircularDependencyError",
   "CloudformationStackCircularDependencyError", "CloudFormationDeletionError",
   "CloudFormationDeploymentError", "CommonNPMError",
   "DeleteFailedWhileDeploymentInProgressError", "FilePermissionsError",
   "MissingDefineBackendError", "MultipleSandboxInstancesError", "ESBuildError",
   "ExpiredTokenError", "FileConventionError", "FileNotFoundError",
   "ModuleNotFoundError", "InsufficientMemorySpaceError",
   "InvalidOrCannotAssumeRoleError", "InvalidPackageJsonError", "SchemaError",
   "SecretNotSetError", "SyntaxError", "GetLambdaLayerVersionError",
   "LambdaEmptyZipFault", "LambdaMaxSizeExceededError", "RequestSignatureError",
   "NodeVersionNotSupportedError", "unknown"]

/-- The spec's taxonomy extended with the one kind the mapper can produce
that the spec's list omits (`getCDKError`'s context-provider branch). -/
def extendedTaxonomy : List String :=
  "CDKContextProviderFault" :: specTaxonomy

/-- A rule none of whose named capture groups is referenced by a
placeholder in either of its templates. -/
def ruleNoRef (r : KnownError) : Bool :=
  r.errorRegex.namedNames.all (fun k =>
    !(jsIncludes r.humanReadableErrorMessage ("\x7b" ++ k ++ "\x7d")) &&
    !(jsIncludes r.resolutionMessage ("\x7b" ++ k ++ "\x7d")))

/-- The table scan cannot mutate the caller's error object for this input:
either no rule matches the stripped message, or the first matching rule
has no capture groups or has named ones (the mutation happens exactly in
the unnamed-capture-groups branch). -/
def tableSafe (fmt : String → String) (e : RawError) : Bool :=
  match (getKnownErrors fmt).find?
      (fun k => k.errorRegex.test (stripAnsi e.message)) with
  | none => true
  | some r => (r.errorRegex.groupCount == 0) || r.errorRegex.hasNamed

/-- A structured error viewed as a raw input error object (an
`AmplifyError` instance is an `Error` whose `name` is its kind and whose
`message` is its human readable message, and it satisfies the
`isAmplifyError` capability check). -/
def asRawError (a : AmplifyError) : RawError :=
  .mk a.name a.message none (some a)

/-! ## Helper lemmas. -/

theorem buildFromRule_name (c : AmplifyErrorClassification) (n m r : String)
    (u : Option RawError) : (buildFromRule c n m r u).name = n := by
  cases c <;> rfl

theorem buildFromRule_cause (c : AmplifyErrorClassification) (n m r : String)
    (u : Option RawError) : (buildFromRule c n m r u).cause = u := by
  cases c <;> rfl

/-- `List.find?` returns the element at the first index whose predicate
holds when everything before that index fails the predicate. -/
theorem find_eq_of_take_all_neg {α : Type} (p : α → Bool) :
    ∀ (l : List α) (i : Nat) (x : α), l[i]? = some x → p x = true →
      (l.take i).all (fun y => !p y) = true → l.find? p = some x := by
  intro l
  induction l with
  | nil => intro i x hget _ _; cases i <;> simp at hget
  | cons a t ih =>
    intro i x hget hp hall
    cases i with
    | zero =>
        simp at hget
        subst hget
        simp [List.find?, hp]
    | succ j =>
        simp [List.take_succ_cons, List.all_cons] at hall
        obtain ⟨ha, hall2⟩ := hall
        simp at hget
        have := ih j x hget hp (by simpa using hall2)
        simp [List.find?, ha, this]

/-- The substitution loop leaves everything unchanged when no placeholder
of any entry occurs in either template. -/
theorem substituteLoop_nochange :
    ∀ (entries : List (String × String)) (msg res : String)
      (u : Option RawError),
      (entries.all fun kv =>
        !(jsIncludes msg ("\x7b" ++ kv.1 ++ "\x7d")) &&
        !(jsIncludes res ("\x7b" ++ kv.1 ++ "\x7d"))) = true →
      substituteLoop entries msg res u = (msg, res, u) := by
  intro entries
  induction entries with
  | nil => intro msg res u _; rfl
  | cons kv rest ih =>
      intro msg res u h
      obtain ⟨k, v⟩ := kv
      simp [List.all_cons] at h
      obtain ⟨⟨h1, h2⟩, h3⟩ := h
      simp only [substituteLoop, h1, h2]
      simp only [Bool.or_self, Bool.false_eq_true, if_false]
      exact ih msg res u (by simpa using h3)

/-- The substitution loop over the groups entries of a rule none of whose
named groups is referenced changes nothing. -/
theorem substituteLoop_entries_nochange (msg res : String) (u : Option RawError)
    (f : String → String) :
    ∀ l : List String,
      (l.all fun k =>
        !(jsIncludes msg ("\x7b" ++ k ++ "\x7d")) &&
        !(jsIncludes res ("\x7b" ++ k ++ "\x7d"))) = true →
      substituteLoop (l.map fun n => (n, f n)) msg res u = (msg, res, u) := by
  intro l
  induction l with
  | nil => intro _; rfl
  | cons a t ih =>
      intro h
      simp [List.all_cons] at h
      obtain ⟨⟨h1, h2⟩, h3⟩ := h
      simp only [List.map_cons, substituteLoop, h1, h2]
      simp only [Bool.or_self, Bool.false_eq_true, if_false]
      exact ih (by simpa using h3)

theorem namedNames_length_le_groupCount (r : RE) :
    r.namedNames.length ≤ r.groupCount := by
  induction r <;>
    simp_all [RE.namedNames, RE.groupCount] <;>
    first
    | omega
    | (rename_i o _ _; cases o <;> simp [RE.namedNames, RE.groupCount] <;> omega)

theorem groupCount_pos_of_hasNamed (r : RE) (h : r.hasNamed = true) :
    0 < r.groupCount := by
  have hlen : 0 < r.namedNames.length := by
    cases hnn : r.namedNames with
    | nil => rw [RE.hasNamed, hnn] at h; simp at h
    | cons a t => simp
  exact lt_of_lt_of_le hlen (namedNames_length_le_groupCount r)

/-- Whatever a matched rule produces is a returned (not thrown) error
carrying the rule's kind. -/
theorem matchedOutcome_name (m : KnownError) (e : RawError) (msg : String) :
    resultName (matchedOutcome m e msg) = some m.errorName := by
  unfold matchedOutcome
  split
  · simp [resultName, buildFromRule_name]
  · split
    · split
      · simp [resultName, buildFromRule_name]
      · simp [resultName, buildFromRule_name]
    · simp [resultName, buildFromRule_name]

/-- A matched rule always returns, never throws. -/
theorem matchedOutcome_ok (m : KnownError) (e : RawError) (msg : String) :
    returnedOk (matchedOutcome m e msg) = true := by
  unfold matchedOutcome
  split
  · simp [returnedOk]
  · split
    · split
      · simp [returnedOk]
      · simp [returnedOk]
    · simp [returnedOk]

/-- When the matched rule has no capture groups, or has named groups none
of which is referenced by a placeholder, the caller's error object is
untouched and is attached as the cause. -/
theorem matchedOutcome_cause_safe (m : KnownError) (e : RawError) (msg : String)
    (h : m.errorRegex.groupCount = 0 ∨
      (m.errorRegex.hasNamed = true ∧ ruleNoRef m = true)) :
    resultCause (matchedOutcome m e msg) = some (some e) ∧
      (matchedOutcome m e msg).finalErr = e := by
  unfold matchedOutcome
  split
  · simp [resultCause, buildFromRule_cause]
  · split
    · split
      · rename_i x fullMatch caps heq hgc hnamed
        have hnoref : ruleNoRef m = true := by
          rcases h with h0 | ⟨_, hr⟩
          · omega
          · exact hr
        unfold ruleNoRef at hnoref
        have hs := substituteLoop_entries_nochange
          m.humanReadableErrorMessage m.resolutionMessage (some e)
          (fun n => (capLookup caps n).getD "undefined")
          m.errorRegex.namedNames hnoref
        simp only [groupsEntries]
        rw [hs]
        simp [resultCause, buildFromRule_cause]
      · rename_i hgc hnamed
        exfalso
        rcases h with h0 | ⟨hn, _⟩
        · omega
        · simp [hn] at hnamed
    · simp [resultCause, buildFromRule_cause]

/-- When the matched rule has no capture groups or has named ones, the
caller's error object is not mutated. -/
theorem matchedOutcome_finalErr (m : KnownError) (e : RawError) (msg : String)
    (h : ((m.errorRegex.groupCount == 0) || m.errorRegex.hasNamed) = true) :
    (matchedOutcome m e msg).finalErr = e := by
  unfold matchedOutcome
  split
  · rfl
  · split
    · split
      · rfl
      · rename_i hgc hnamed
        exfalso
        simp [hnamed] at h
        omega
    · rfl

/-- `getCDKError` can only throw for the four native error names. -/
theorem getCDKError_ok_of_name (e : RawError)
    (h : (["TypeError", "TransformError", "ReferenceError",
      "SyntaxError"].contains e.name) = false) :
    ∀ t, getCDKError e ≠ Except.error t := by
  intro t
  unfold getCDKError
  rw [h]
  split
  · simp
  · split
    · simp
    · split
      · simp
      · simp

/-- Under the five branch-skipping hypotheses the classifier is exactly the
ANSI-stripped table scan with the `fromError` fallback. -/
theorem getAmplifyError_table (fmt : String → String) (e : RawError)
    (d : Option DeploymentType)
    (h1 : AmplifyError.fromStderr e.message = none)
    (h2 : e.amplify = none)
    (h3 : getCDKError e = Except.ok none)
    (h4 : jsIncludes e.message "does not support module.register()" = false)
    (h5 : jsIncludes e.message "Failed to bundle asset" = false) :
    getAmplifyError fmt e d =
      match (getKnownErrors fmt).find?
          (fun k => k.errorRegex.test (stripAnsi e.message)) with
      | none => ⟨.ok (AmplifyError.fromError e), e⟩
      | some m => matchedOutcome m e (stripAnsi e.message) := by
  unfold getAmplifyError
  rw [h1, h2, h3]
  simp only [h4, h5, Bool.false_eq_true, if_false]

/-- Every kind in the rule table is in the extended taxonomy. -/
theorem getKnownErrors_kinds (fmt : String → String) :
    ((getKnownErrors fmt).all fun k =>
      extendedTaxonomy.contains k.errorName) = true := by
  rfl

/-! ## Concrete inputs used by witnesses and counterexamples. -/

/-- A concrete formatter rendering the canonical CLI invocation. -/
def fmt0 : String → String := fun s => "npx ampx " ++ s

def adError : RawError := .mk "Error" "Access Denied: xyz" none none

def roleMessage : String :=
  "Role arn:aws:iam::123:role/Foo is invalid or cannot be assumed"

def roleError : RawError := .mk "Error" roleMessage none none

def fnfError : RawError :=
  .mk "Error" "no such file or directory, open /tmp/foo.txt" none none

def ansiAdError : RawError :=
  .mk "Error" "\x1b[31mAccess Denied\x1b[0m: xyz" none none

def ansiBundleError : RawError :=
  .mk "Error" "Failed to \x1b[1mbundle\x1b[22m asset X" none none

def ansiRegisterError : RawError :=
  .mk "Error" "v16 does not support \x1b[1mmodule.register()\x1b[22m here" none none

def eaccesError : RawError := .mk "Error" "boom EACCES denied" none none

def typeErrorInput : RawError := .mk "TypeError" "boom" none none

def ctxProviderError : RawError :=
  .mk "Error" "context provider boom" (some .contextProvider) none

def registerError : RawError :=
  .mk "Error" "v16 does not support module.register() here" none none

def bundleError : RawError :=
  .mk "Error" "xx Failed to bundle asset yy" none none

def unknownError : RawError :=
  .mk "Error" "some totally unrecognized failure xyz123" none none

def c5Error : RawError := .mk "Error" "Access Denied: amplify/backend" none none

def passthroughContent : AmplifyError :=
  .mk "SomeKindError" .ERROR "message here" none none

def passthroughError : RawError :=
  .mk "SomeKindError" "message here" none (some passthroughContent)

/-! ## The claims. -/

/-- C6. Idempotence on already-structured input: when the input error is
already a structured Amplify error (capability check: its `amplify` content
is present) and its raw message does not embed a serialized structured
error (the one branch the source checks first), `getAmplifyError` returns
that same structured error value unchanged, and leaves the input
untouched; classifying the result of a classification therefore returns it
as-is. -/
theorem claim_c6_passthrough_idempotence
    (fmt : String → String) (e : RawError) (d : Option DeploymentType)
    (a : AmplifyError)
    (h1 : AmplifyError.fromStderr e.message = none)
    (h2 : e.amplify = some a) :
    getAmplifyError fmt e d = ⟨Except.ok a, e⟩ := by
  unfold getAmplifyError
  simp only [h1, h2]

theorem claim_c6_passthrough_idempotence_witness :
    AmplifyError.fromStderr passthroughError.message = none ∧
    passthroughError.amplify = some passthroughContent ∧
    getAmplifyError fmt0 passthroughError none =
      ⟨Except.ok passthroughContent, passthroughError⟩ := by
  exact ⟨rfl, rfl,
    claim_c6_passthrough_idempotence fmt0 passthroughError none
      passthroughContent rfl rfl⟩

/-- C7. Context-dependent node-version branch: an input that is not an
embedded or already-structured Amplify error nor a typed toolkit error and
whose raw message contains "does not support module.register()" yields a
returned `NodeVersionNotSupportedError` (a USER_ERROR, i.e. classification
ERROR) with the fixed message, the CI/CD resolution exactly when
`deploymentType` is `'branch'` and the direct node-upgrade resolution
otherwise, and the original error attached as cause. -/
theorem claim_c7_node_version_branch
    (fmt : String → String) (e : RawError) (d : Option DeploymentType)
    (h1 : AmplifyError.fromStderr e.message = none)
    (h2 : e.amplify = none)
    (h3 : getCDKError e = Except.ok none)
    (h4 : jsIncludes e.message "does not support module.register()" = true) :
    getAmplifyError fmt e d =
      ⟨Except.ok (AmplifyUserError "NodeVersionNotSupportedError"
        "Unable to deploy due to unsupported node version"
        (some (if d = some DeploymentType.branch then
          "Upgrade the node version in your CI/CD environment. " ++
          "If you are using Amplify Hosting for your backend builds, you can add `nvm install 18.x` or `nvm install 20.x` in your `amplify.yml` before the `pipeline-deploy` command"
        else
          "Upgrade to node `^18.19.0`, `^20.6.0,` or `>=22`"))
        (some e)), e⟩ := by
  unfold getAmplifyError
  simp only [h1, h2, h3, h4, if_true]

theorem claim_c7_node_version_branch_witness :
    jsIncludes registerError.message "does not support module.register()" = true ∧
    resultName (getAmplifyError fmt0 registerError (some .branch)) =
      some "NodeVersionNotSupportedError" ∧
    (getAmplifyError fmt0 registerError (some .branch)).result =
      Except.ok (AmplifyUserError "NodeVersionNotSupportedError"
        "Unable to deploy due to unsupported node version"
        (some ("Upgrade the node version in your CI/CD environment. " ++
          "If you are using Amplify Hosting for your backend builds, you can add `nvm install 18.x` or `nvm install 20.x` in your `amplify.yml` before the `pipeline-deploy` command"))
        (some registerError)) ∧
    (getAmplifyError fmt0 registerError none).result =
      Except.ok (AmplifyUserError "NodeVersionNotSupportedError"
        "Unable to deploy due to unsupported node version"
        (some "Upgrade to node `^18.19.0`, `^20.6.0,` or `>=22`")
        (some registerError)) := by
  refine ⟨rfl, ?_, ?_, ?_⟩
  · rw [claim_c7_node_version_branch fmt0 registerError (some .branch)
      rfl rfl rfl rfl]
    rfl
  · rw [claim_c7_node_version_branch fmt0 registerError (some .branch)
      rfl rfl rfl rfl]
    rfl
  · rw [claim_c7_node_version_branch fmt0 registerError none
      rfl rfl rfl rfl]
    rfl

/-- C9. Deliberate cause discard for the bundler special case: an input
that reaches the special cases (not an embedded, already-structured or
typed toolkit error), whose raw message does not contain the
`module.register` marker but does contain "Failed to bundle asset", yields
a returned USER_ERROR `CDKAssetBundleError` with the fixed message and
resolution and **no** cause attached. -/
theorem claim_c9_bundle_cause_discarded
    (fmt : String → String) (e : RawError) (d : Option DeploymentType)
    (h1 : AmplifyError.fromStderr e.message = none)
    (h2 : e.amplify = none)
    (h3 : getCDKError e = Except.ok none)
    (h4 : jsIncludes e.message "does not support module.register()" = false)
    (h5 : jsIncludes e.message "Failed to bundle asset" = true) :
    getAmplifyError fmt e d =
      ⟨Except.ok (AmplifyUserError "CDKAssetBundleError"
        "CDK failed to bundle your function code"
        (some "Check the error messages above for mode details") none), e⟩ := by
  unfold getAmplifyError
  simp only [h1, h2, h3, h4, h5, Bool.false_eq_true, if_false, if_true]

theorem claim_c9_bundle_cause_discarded_witness :
    jsIncludes bundleError.message "Failed to bundle asset" = true ∧
    (getAmplifyError fmt0 bundleError none).result =
      Except.ok (AmplifyUserError "CDKAssetBundleError"
        "CDK failed to bundle your function code"
        (some "Check the error messages above for mode details") none) ∧
    resultCause (getAmplifyError fmt0 bundleError none) = some none := by
  refine ⟨rfl, ?_, ?_⟩ <;>
    rw [claim_c9_bundle_cause_discarded fmt0 bundleError none
      rfl rfl rfl rfl rfl] <;> rfl

/-- C1 (counterexample). Totality fails as claimed: the native-error-name
branch of `getCDKError` throws instead of returning, so `getAmplifyError`
raises for a plain input error named `TypeError` — the classifier does not
return a value for every input. -/
theorem claim_c1_counterexample :
    (getAmplifyError fmt0 typeErrorInput none).result =
      Except.error (AmplifyUserError "SyntaxError"
        "Unable to build the Amplify backend definition."
        (some "Check the Caused by error and fix any issues in your backend code")
        (some typeErrorInput)) ∧
    returnedOk (getAmplifyError fmt0 typeErrorInput none) = false := by
  exact ⟨rfl, rfl⟩

/-- C1 (amended). Totality for every input except the thrown
native-error-name branch: whenever the input's `name` is not one of
`TypeError`, `TransformError`, `ReferenceError`, `SyntaxError`,
`getAmplifyError` returns a structured error value and never raises; for
those four names the classifier raises (throws) an `AmplifyUserError` of
kind `SyntaxError` instead of returning it, unless an earlier branch
(embedded error, passthrough, or an earlier toolkit probe) applies. -/
theorem claim_c1_totality_amended
    (fmt : String → String) (e : RawError) (d : Option DeploymentType)
    (h : (["TypeError", "TransformError", "ReferenceError",
      "SyntaxError"].contains e.name) = false) :
    returnedOk (getAmplifyError fmt e d) = true := by
  unfold getAmplifyError
  split
  · rfl
  · split
    · rfl
    · split
      · rename_i t ht
        exact absurd ht (getCDKError_ok_of_name e h t)
      · rfl
      · split
        · rfl
        · split
          · rfl
          · split
            · rfl
            · exact matchedOutcome_ok _ _ _

theorem claim_c1_totality_amended_witness :
    (["TypeError", "TransformError", "ReferenceError",
      "SyntaxError"].contains unknownError.name) = false ∧
    returnedOk (getAmplifyError fmt0 unknownError none) = true := by
  exact ⟨by decide,
    claim_c1_totality_amended fmt0 unknownError none (by decide)⟩

/-- C2 (counterexample). The closed output taxonomy is violated: a toolkit
context-provider error is mapped by `getCDKError` to an `AmplifyFault` of
kind `CDKContextProviderFault`, which the claim's enumerated set does not
contain. -/
theorem claim_c2_counterexample :
    (getAmplifyError fmt0 ctxProviderError none).result =
      Except.ok (AmplifyFault "CDKContextProviderFault"
        "Unable to deploy due to CDK Context Provider Error"
        none (some ctxProviderError)) ∧
    specTaxonomy.contains "CDKContextProviderFault" = false := by
  exact ⟨rfl, by decide⟩

/-- C2 (amended). Closed output taxonomy extended by
`CDKContextProviderFault`: for every input that is not an embedded
serialized error and not an already-structured passthrough (those two
branches return structured errors of arbitrary pre-existing kinds), the
kind tag of any error **returned** by `getAmplifyError` belongs to the
spec's enumerated set extended with `CDKContextProviderFault`. -/
theorem mapper_cdk_error (fmt : String → String) (e : RawError)
    (d : Option DeploymentType) (t : AmplifyError)
    (h1 : AmplifyError.fromStderr e.message = none)
    (h2 : e.amplify = none)
    (hcdk : getCDKError e = Except.error t) :
    getAmplifyError fmt e d = ⟨Except.error t, e⟩ := by
  unfold getAmplifyError
  simp only [h1, h2, hcdk]

theorem mapper_cdk_some (fmt : String → String) (e : RawError)
    (d : Option DeploymentType) (x : AmplifyError)
    (h1 : AmplifyError.fromStderr e.message = none)
    (h2 : e.amplify = none)
    (hcdk : getCDKError e = Except.ok (some x)) :
    getAmplifyError fmt e d = ⟨Except.ok x, e⟩ := by
  unfold getAmplifyError
  simp only [h1, h2, hcdk]

theorem claim_c2_taxonomy_amended
    (fmt : String → String) (e : RawError) (d : Option DeploymentType)
    (a : AmplifyError)
    (h1 : AmplifyError.fromStderr e.message = none)
    (h2 : e.amplify = none)
    (hok : (getAmplifyError fmt e d).result = Except.ok a) :
    extendedTaxonomy.contains a.name = true := by
  rcases hcdk : getCDKError e with t | o
  · rw [mapper_cdk_error fmt e d t h1 h2 hcdk] at hok
    simp at hok
  · cases o with
    | some x =>
        rw [mapper_cdk_some fmt e d x h1 h2 hcdk] at hok
        simp at hok
        subst hok
        unfold getCDKError at hcdk
        split at hcdk
        · simp at hcdk; rw [← hcdk]; rfl
        · split at hcdk
          · simp at hcdk; rw [← hcdk]; rfl
          · split at hcdk
            · simp at hcdk; rw [← hcdk]; rfl
            · split at hcdk
              · simp at hcdk
              · simp at hcdk
    | none =>
        revert hok
        unfold getAmplifyError
        simp only [h1, h2, hcdk]
        intro hok
        split at hok
        · simp at hok
          rw [← hok]
          rfl
        · split at hok
          · simp at hok
            rw [← hok]
            rfl
          · split at hok
            · simp at hok
              rw [← hok]
              rfl
            · rename_i m hfind
              have hname := matchedOutcome_name m e (stripAnsi e.message)
              unfold resultName at hname
              rw [hok] at hname
              simp at hname
              rw [hname]
              have hmem := List.mem_of_find?_eq_some hfind
              have hall := getKnownErrors_kinds fmt
              rw [List.all_eq_true] at hall
              simpa using hall m hmem

theorem claim_c2_taxonomy_amended_witness :
    AmplifyError.fromStderr adError.message = none ∧
    adError.amplify = none ∧
    extendedTaxonomy.contains "AccessDeniedError" = true := by
  refine ⟨rfl, rfl, ?_⟩
  exact claim_c2_taxonomy_amended fmt0 adError none
    (AmplifyUserError "AccessDeniedError"
      "The deployment role does not have sufficient permissions to perform this deployment."
      (some "Ensure your deployment role has the AmplifyBackendDeployFullAccess role along with any additional permissions required to deploy your backend definition.")
      (some adError))
    rfl rfl rfl

/-- C4 (counterexample). The claimed purity with respect to the caller's
input fails: for the message "boom EACCES denied" the first matching rule
is `EACCES(.*)` — capture groups but no named ones — and the mapper
executes `underlyingError.message = matchGroups[0]`, so the input error's
`message` differs after the call from before it. -/
theorem claim_c4_counterexample :
    (getAmplifyError fmt0 eaccesError none).finalErr.message = "EACCES denied" ∧
    eaccesError.message = "boom EACCES denied" ∧
    (getAmplifyError fmt0 eaccesError none).finalErr.message ≠
      eaccesError.message := by
  exact ⟨rfl, rfl, by decide⟩

/-- C4 (amended). The call never mutates the rule table (a fresh table
value `getKnownErrors fmt` is consulted per call, so two calls with the
same input agree), and it does not mutate the caller's input error object
unless the first matching table rule has capture groups but no named ones;
under `tableSafe` — no rule matches, or the first matching rule has no
capture groups or has named ones — the input error is unchanged by the
call. -/
theorem claim_c4_no_mutation_amended
    (fmt : String → String) (e : RawError) (d : Option DeploymentType)
    (h : tableSafe fmt e = true) :
    (getAmplifyError fmt e d).finalErr = e := by
  unfold getAmplifyError
  split
  · rfl
  · split
    · rfl
    · split
      · rfl
      · rfl
      · split
        · rfl
        · split
          · rfl
          · split
            · rfl
            · rename_i m hfind
              apply matchedOutcome_finalErr
              unfold tableSafe at h
              rw [hfind] at h
              exact h

theorem claim_c4_no_mutation_amended_witness :
    tableSafe fmt0 adError = true ∧
    (getAmplifyError fmt0 adError none).finalErr = adError := by
  exact ⟨rfl, claim_c4_no_mutation_amended fmt0 adError none rfl⟩

/-- C5. First-match-wins ordering: in the table-scan branch (the five
earlier branches not applying), if rule `ri` sits at index `i`, a second
rule `rj` sits at a later index `j`, both rules' regexes match the
ANSI-stripped message, and every rule before index `i` fails to match,
then the error returned carries `ri`'s kind — the rule applied is the
first matching one in declaration order. -/
theorem claim_c5_first_match_wins
    (fmt : String → String) (e : RawError) (d : Option DeploymentType)
    (i j : Nat) (ri rj : KnownError)
    (h1 : AmplifyError.fromStderr e.message = none)
    (h2 : e.amplify = none)
    (h3 : getCDKError e = Except.ok none)
    (h4 : jsIncludes e.message "does not support module.register()" = false)
    (h5 : jsIncludes e.message "Failed to bundle asset" = false)
    (hij : i < j)
    (hi : (getKnownErrors fmt)[i]? = some ri)
    (hj : (getKnownErrors fmt)[j]? = some rj)
    (hmi : ri.errorRegex.test (stripAnsi e.message) = true)
    (hmj : rj.errorRegex.test (stripAnsi e.message) = true)
    (hfirst : ((getKnownErrors fmt).take i).all
      (fun k => !k.errorRegex.test (stripAnsi e.message)) = true) :
    resultName (getAmplifyError fmt e d) = some ri.errorName := by
  rw [getAmplifyError_table fmt e d h1 h2 h3 h4 h5,
    find_eq_of_take_all_neg _ _ i ri hi hmi hfirst]
  exact matchedOutcome_name ri e (stripAnsi e.message)

theorem claim_c5_first_match_wins_witness :
    (2 : Nat) < 34 ∧
    (((getKnownErrors fmt0).take 2).all
      (fun k => !k.errorRegex.test (stripAnsi c5Error.message))) = true ∧
    ((getKnownErrors fmt0)[2]?).map
      (fun r => r.errorRegex.test (stripAnsi c5Error.message)) = some true ∧
    ((getKnownErrors fmt0)[34]?).map
      (fun r => r.errorRegex.test (stripAnsi c5Error.message)) = some true ∧
    resultName (getAmplifyError fmt0 c5Error none) = some "AccessDeniedError" := by
  refine ⟨by decide, rfl, rfl, rfl, ?_⟩
  exact claim_c5_first_match_wins fmt0 c5Error none 2 34
    ((getKnownErrors fmt0).get ⟨2, by decide⟩)
    ((getKnownErrors fmt0).get ⟨34, by decide⟩)
    rfl rfl rfl rfl rfl (by decide) rfl rfl rfl rfl rfl

/-- Under the claim C8 precondition — the rule has no named capture groups,
or none of its named groups is referenced by a placeholder — the cause
attached by a matched rule is exactly the caller's error object in its
final state (the object the call hands back), never dropped. -/
theorem matchedOutcome_cause_obj (m : KnownError) (e : RawError) (msg : String)
    (h : m.errorRegex.hasNamed = false ∨ ruleNoRef m = true) :
    resultCause (matchedOutcome m e msg) =
      some (some ((matchedOutcome m e msg).finalErr)) := by
  unfold matchedOutcome
  split
  · simp [resultCause, buildFromRule_cause]
  · split
    · split
      · rename_i x fullMatch caps heq hgc hnamed
        have hnoref : ruleNoRef m = true := by
          rcases h with h0 | hr
          · rw [hnamed] at h0; simp at h0
          · exact hr
        unfold ruleNoRef at hnoref
        have hs := substituteLoop_entries_nochange
          m.humanReadableErrorMessage m.resolutionMessage (some e)
          (fun n => (capLookup caps n).getD "undefined")
          m.errorRegex.namedNames hnoref
        simp only [groupsEntries]
        rw [hs]
        simp [resultCause, buildFromRule_cause]
      · simp [resultCause, buildFromRule_cause]
    · simp [resultCause, buildFromRule_cause]

/-- C8 (counterexample). The claim fails for rules with only unnamed
capture groups, which its "no named capture groups" precondition covers:
for the input "boom EACCES denied" the first matching rule is
`EACCES(.*)` — its regex has no named groups — yet the cause attached to
the returned `FilePermissionsError` is the caller's error object **after**
`underlyingError.message = matchGroups[0]` overwrote its message with the
full match "EACCES denied", so the cause does not equal the original raw
error. -/
theorem claim_c8_counterexample :
    ((getKnownErrors fmt0).find?
      (fun k => k.errorRegex.test (stripAnsi eaccesError.message))).map
        (fun r => r.errorRegex.hasNamed) = some false ∧
    (resultCause (getAmplifyError fmt0 eaccesError none)).map
      (fun c => c.map RawError.message) = some (some "EACCES denied") ∧
    eaccesError.message = "boom EACCES denied" ∧
    ("EACCES denied" : String) ≠ "boom EACCES denied" := by
  exact ⟨rfl, rfl, rfl, by decide⟩

/-- C8 (amended). Cause attachment without referenced named groups: in the
table-scan branch, when the first matching rule's pattern has no named
capture groups, or none of its named groups appears as a placeholder in
the rule's templates, the returned error carries the rule's kind and the
caller's raw error object as its cause — the cause is never dropped, and
it is exactly the object the call hands back; when moreover the rule has
no capture groups at all or has named ones, that object is the original
input unchanged (in particular the concrete /Access Denied/ case holds as
claimed), while for a rule with only unnamed capture groups the attached
object's message has been overwritten with the full match text. -/
theorem claim_c8_cause_amended
    (fmt : String → String) (e : RawError) (d : Option DeploymentType)
    (i : Nat) (ri : KnownError)
    (h1 : AmplifyError.fromStderr e.message = none)
    (h2 : e.amplify = none)
    (h3 : getCDKError e = Except.ok none)
    (h4 : jsIncludes e.message "does not support module.register()" = false)
    (h5 : jsIncludes e.message "Failed to bundle asset" = false)
    (hi : (getKnownErrors fmt)[i]? = some ri)
    (hmi : ri.errorRegex.test (stripAnsi e.message) = true)
    (hfirst : ((getKnownErrors fmt).take i).all
      (fun k => !k.errorRegex.test (stripAnsi e.message)) = true)
    (hP : ri.errorRegex.hasNamed = false ∨ ruleNoRef ri = true) :
    resultName (getAmplifyError fmt e d) = some ri.errorName ∧
    resultCause (getAmplifyError fmt e d) =
      some (some ((getAmplifyError fmt e d).finalErr)) ∧
    ((ri.errorRegex.groupCount = 0 ∨ ri.errorRegex.hasNamed = true) →
      (getAmplifyError fmt e d).finalErr = e) := by
  rw [getAmplifyError_table fmt e d h1 h2 h3 h4 h5,
    find_eq_of_take_all_neg _ _ i ri hi hmi hfirst]
  refine ⟨matchedOutcome_name ri e (stripAnsi e.message),
    matchedOutcome_cause_obj ri e (stripAnsi e.message) hP, ?_⟩
  intro hgc
  apply matchedOutcome_finalErr
  rcases hgc with h0 | hn
  · simp [h0]
  · simp [hn]

theorem claim_c8_cause_amended_witness :
    (((getKnownErrors fmt0).take 2).all
      (fun k => !k.errorRegex.test (stripAnsi adError.message))) = true ∧
    resultName (getAmplifyError fmt0 adError none) = some "AccessDeniedError" ∧
    resultCause (getAmplifyError fmt0 adError none) = some (some adError) ∧
    (getAmplifyError fmt0 adError none).finalErr = adError := by
  have h := claim_c8_cause_amended fmt0 adError none 2
    ((getKnownErrors fmt0).get ⟨2, by decide⟩)
    rfl rfl rfl rfl rfl rfl rfl rfl (Or.inl rfl)
  have h3 := h.2.2 (Or.inl rfl)
  have hc := h.2.1
  rw [h3] at hc
  exact ⟨rfl, h.1, hc, h3⟩

/-- C3. Placeholder substitution: for the `Role (?<roleArn>.*) is invalid
or cannot be assumed` rule applied to the message
"Role arn:aws:iam::123:role/Foo is invalid or cannot be assumed", the
captured text is substituted for the placeholder, giving back exactly that
message under kind `InvalidOrCannotAssumeRoleError` with severity
USER_ERROR and no cause attached; and for the `FileNotFoundError` rule the
captured `action_and_filepath` group is substituted into its placeholder
occurrence in **both** the message and the resolution templates, again
with no cause attached. -/
theorem claim_c3_placeholder_substitution :
    getAmplifyError fmt0 roleError none =
      ⟨Except.ok (AmplifyUserError "InvalidOrCannotAssumeRoleError"
        roleMessage
        (some "Ensure the role exists and AWS credentials have an IAM policy that grants sts:AssumeRole for the role")
        none), roleError⟩ ∧
    getAmplifyError fmt0 fnfError none =
      ⟨Except.ok (AmplifyUserError "FileNotFoundError"
        "Failed to open /tmp/foo.txt"
        (some "File or directory not found. Failed to open /tmp/foo.txt")
        none), fnfError⟩ := by
  exact ⟨rfl, rfl⟩

/-- C10. ANSI stripping applies only to the pattern-table scan: color
codes around "Access Denied" still classify as `AccessDeniedError`
(the table is tested against the stripped message), while the raw-message
special cases are not triggered when their phrases are interrupted by ANSI
codes — the raw message does not contain the phrase even though the
stripped one does, and the input falls through to the generic fallback
instead of `CDKAssetBundleError` / `NodeVersionNotSupportedError`. -/
theorem claim_c10_ansi_scope :
    stripAnsi ansiAdError.message = "Access Denied: xyz" ∧
    resultName (getAmplifyError fmt0 ansiAdError none) =
      some "AccessDeniedError" ∧
    resultCause (getAmplifyError fmt0 ansiAdError none) =
      some (some ansiAdError) ∧
    jsIncludes ansiBundleError.message "Failed to bundle asset" = false ∧
    jsIncludes (stripAnsi ansiBundleError.message)
      "Failed to bundle asset" = true ∧
    resultName (getAmplifyError fmt0 ansiBundleError none) = some "unknown" ∧
    jsIncludes ansiRegisterError.message
      "does not support module.register()" = false ∧
    jsIncludes (stripAnsi ansiRegisterError.message)
      "does not support module.register()" = true ∧
    resultName (getAmplifyError fmt0 ansiRegisterError none) = some "unknown" := by
  exact ⟨rfl, rfl, rfl, rfl, rfl, rfl, rfl, rfl, rfl⟩

end CdkMapper
